import Mathlib

/-!
Verification of the connection-handling core of the diyorsattarov/16 server:
protocol detection, the pipelined HTTP session state machine with its bounded
response queue, the request handler, the listener accept loop, and the shared
failure reporter.  Each definition is a shallow embedding of the corresponding
C++ function from the source tree (file and symbol named in its doc comment).
-/

/-- Error codes observed by completion handlers (beast::error_code values that
the source distinguishes). -/
inductive ErrorCode where
  | ok
  | endOfStream
  | bodyLimitExceeded
  | streamTruncated
  | wsClosed
  | other (n : Nat)
deriving DecidableEq

/-- Model of ec.message() for the error codes above. -/
def ecMessage : ErrorCode → String
  | ErrorCode.ok => "Success"
  | ErrorCode.endOfStream => "end of stream"
  | ErrorCode.bodyLimitExceeded => "body limit exceeded"
  | ErrorCode.streamTruncated => "stream truncated"
  | ErrorCode.wsClosed => "websocket closed"
  | ErrorCode.other n => "error " ++ toString n

/-- include/util/util.hpp, fail: returns the emitted log line, or none when the
error is the suppressed ssl stream_truncated code. -/
def fail (ec : ErrorCode) (what : String) : Option String :=
  if ec = ErrorCode.streamTruncated then none
  else some (what ++ ": " ++ ecMessage ec)

/-- HTTP verbs distinguished by the request handler. -/
inductive Verb where
  | get
  | head
  | post
  | put
  | delete
  | options
deriving DecidableEq

/-- A parsed HTTP request (the fields of http::request that the source reads). -/
structure Request where
  method : Verb
  target : String
  version : Nat
  keepAlive : Bool
  body : String
  isUpgrade : Bool


/-- A fully-formed HTTP response (the fields the source sets on its responses). -/
structure Response where
  status : Nat
  contentType : String
  body : String
  contentLength : Nat
  keepAlive : Bool


/-- Outcome of body.open on a path (the beast::file_body open call in
handle_request). -/
inductive FileOpenResult where
  | noSuchFile
  | openErr (msg : String)
  | found (content : String)


/-- True when the character list contains two consecutive dots (the
req.target().find substring test in handle_request). -/
def hasDotDot : List Char → Bool
  | '.' :: '.' :: _ => true
  | _ :: rest => hasDotDot rest
  | [] => false

/-- True when the string starts with the root marker (req.target()[0] test). -/
def startsWithSlash (t : String) : Bool :=
  match t.toList with
  | '/' :: _ => true
  | _ => false

/-- True when the string ends in a slash (req.target().back() test). -/
def endsWithSlash (t : String) : Bool :=
  match t.toList.getLast? with
  | some '/' => true
  | _ => false

/-- The illegal-target test from handle_request: empty, not starting with the
root marker, or containing a parent-directory sequence. -/
def targetIllegal (t : String) : Bool :=
  t.isEmpty || !startsWithSlash t || hasDotDot t.toList

/-- include/http/request_handler.hpp, path_cat (POSIX branch): concatenate the
document root and the request target. -/
def path_cat (base path : String) : String :=
  if base.isEmpty then path
  else (if endsWithSlash base then base.dropRight 1 else base) ++ path

/-- The suffix of the character list starting at its last dot, if any (the
rfind-based extension extraction in mime_type). -/
def extAfterDot : List Char → Option (List Char)
  | [] => none
  | c :: rest =>
    match extAfterDot rest with
    | some e => some e
    | none => if c = '.' then some (c :: rest) else none

/-- include/http/request_handler.hpp, mime_type: map a path extension to a MIME
type (iequals modelled by lowercasing the extension). -/
def mime_type (path : String) : String :=
  match extAfterDot path.toList with
  | none => "application/text"
  | some e =>
    let ext := (String.mk e).toLower
    if ext = ".htm" then "text/html"
    else if ext = ".html" then "text/html"
    else if ext = ".php" then "text/html"
    else if ext = ".css" then "text/css"
    else if ext = ".txt" then "text/plain"
    else if ext = ".js" then "application/javascript"
    else if ext = ".json" then "application/json"
    else if ext = ".xml" then "application/xml"
    else if ext = ".swf" then "application/x-shockwave-flash"
    else if ext = ".flv" then "video/x-flv"
    else if ext = ".png" then "image/png"
    else if ext = ".jpe" then "image/jpeg"
    else if ext = ".jpeg" then "image/jpeg"
    else if ext = ".jpg" then "image/jpeg"
    else if ext = ".gif" then "image/gif"
    else if ext = ".bmp" then "image/bmp"
    else if ext = ".ico" then "image/vnd.microsoft.icon"
    else if ext = ".tiff" then "image/tiff"
    else if ext = ".tif" then "image/tiff"
    else if ext = ".svg" then "image/svg+xml"
    else if ext = ".svgz" then "image/svg+xml"
    else "application/text"

/-- The bad_request lambda in handle_request: a 400 response whose body is the
explanatory text, mirroring the keep-alive of the request. -/
def bad_request (req : Request) (why : String) : Response :=
  { status := 400, contentType := "text/html", body := why,
    contentLength := why.length, keepAlive := req.keepAlive }

/-- The not_found lambda in handle_request: a 404 response naming the target. -/
def not_found (req : Request) (target : String) : Response :=
  let b := "The resource \x27" ++ target ++ "\x27 was not found."
  { status := 404, contentType := "text/html", body := b,
    contentLength := b.length, keepAlive := req.keepAlive }

/-- The server_error lambda in handle_request: a 500 response embedding the
underlying error message. -/
def server_error (req : Request) (what : String) : Response :=
  let b := "An error occurred: \x27" ++ what ++ "\x27"
  { status := 500, contentType := "text/html", body := b,
    contentLength := b.length, keepAlive := req.keepAlive }

/-- include/http/request_handler.hpp, handle_request: method and target
validation, then the file lookup (the file system modelled as a function from
path to open outcome), producing exactly one response. -/
def handle_request (fs : String → FileOpenResult) (doc_root : String)
    (req : Request) : Response :=
  if req.method ≠ Verb.get ∧ req.method ≠ Verb.head then
    bad_request req "Unknown HTTP-method"
  else if targetIllegal req.target then
    bad_request req "Illegal request-target"
  else
    let path0 := path_cat doc_root req.target
    let path := if endsWithSlash req.target then path0 ++ "index.html" else path0
    match fs path with
    | FileOpenResult.noSuchFile => not_found req req.target
    | FileOpenResult.openErr msg => server_error req msg
    | FileOpenResult.found content =>
      if req.method = Verb.head then
        { status := 200, contentType := mime_type path, body := "",
          contentLength := content.length, keepAlive := req.keepAlive }
      else
        { status := 200, contentType := mime_type path, body := content,
          contentLength := content.length, keepAlive := req.keepAlive }

/-- include/http/http_session.hpp, queue_limit: the pending response queue
capacity. -/
def queue_limit : Nat := 8

/-- State of one http_session: the response queue (front at the head), the
current parser body limit, whether an async_read is in flight, the keep-alive
flag captured by the in-flight async_write (none when no write is in flight),
the idle-timeout setting (none means expires_never), whether do_eof ran,
whether the session retired into a WebSocket hand-off, and ghost logs of every
response pushed, every response whose write completed, and every fail line. -/
structure Session where
  queue : List Response
  parser : Option Nat
  readInFlight : Bool
  writeKA : Option Bool
  timeout : Option Nat
  closedEof : Bool
  wsStarted : Bool
  pushedLog : List Response
  writtenLog : List Response
  failLog : List String


/-- include/http/http_session.hpp, do_read: emplace a fresh parser, set its
body limit to 10000, arm the 30 second timeout, start an async_read. -/
def do_read (s : Session) : Session :=
  { s with parser := some 10000, timeout := some 30, readInFlight := true }

/-- Transport teardown (plain_http_session::do_eof sends a TCP shutdown;
ssl_http_session::do_eof starts the TLS closure handshake). -/
def do_eof (s : Session) : Session :=
  { s with closedEof := true }

/-- include/http/http_session.hpp, do_write: if the queue is not empty, start
an async_write of the front response, capturing its keep_alive flag. -/
def do_write (s : Session) : Session :=
  match s.queue with
  | [] => s
  | r :: _ => { s with writeKA := some r.keepAlive }

/-- include/http/http_session.hpp, queue_write: push the response; if it is the
only element, start the write loop. -/
def queue_write (resp : Response) (s : Session) : Session :=
  let s1 := { s with queue := s.queue ++ [resp], pushedLog := s.pushedLog ++ [resp] }
  if s1.queue.length = 1 then do_write s1 else s1

/-- include/http/http_session.hpp, on_read: end-of-stream closes the session;
any other error is reported through fail; an upgrade request disables the
timeout and retires into the WebSocket factory; an ordinary request is handled,
its response queued, and the next read started only while the queue is below
the limit. -/
def on_read (fs : String → FileOpenResult) (doc_root : String) (s : Session)
    (ec : ErrorCode) (req : Request) : Session :=
  let s0 := { s with readInFlight := false }
  if ec = ErrorCode.endOfStream then do_eof s0
  else if ec = ErrorCode.ok then
    if req.isUpgrade then
      { s0 with timeout := none, wsStarted := true }
    else
      let s1 := queue_write (handle_request fs doc_root req) s0
      if s1.queue.length < queue_limit then do_read s1 else s1
  else
    { s0 with failLog := s0.failLog ++ (fail ec "read").toList }

/-- include/http/http_session.hpp, on_write: an error is reported through fail;
a close directive performs do_eof before any pop, discarding the queue; a
keep-alive completion re-arms reading exactly when the queue was at the limit,
pops the written front, and continues the write loop. -/
def on_write (s : Session) (keep_alive : Bool) (ec : ErrorCode) : Session :=
  let s0 := { s with writeKA := none }
  if ec ≠ ErrorCode.ok then
    { s0 with failLog := s0.failLog ++ (fail ec "write").toList }
  else if keep_alive = false then do_eof s0
  else
    let s1 := if s0.queue.length = queue_limit then do_read s0 else s0
    let s2 := { s1 with queue := s1.queue.tail,
                        writtenLog := s1.writtenLog ++ s1.queue.head?.toList }
    do_write s2

/-- The session right after run(): do_read on an empty-queue state (the
detection buffer hand-off is modelled separately). -/
def initSession : Session :=
  do_read { queue := [], parser := none, readInFlight := false, writeKA := none,
            timeout := none, closedEof := false, wsStarted := false,
            pushedLog := [], writtenLog := [], failLog := [] }

/-- Labels for session transitions: which completion handler fires and with
what outcome. -/
inductive Act where
  | readOk (req : Request)
  | readEof
  | readErr (ec : ErrorCode) (req : Request)
  | writeOk (ka : Bool)
  | writeErr (ec : ErrorCode) (ka : Bool)

/-- One completion-handler execution of the session state machine.  A read
completes only while a read is in flight; the parser delivers a request only
when its body fits the installed limit and reports bodyLimitExceeded when it
does not; a write completes only while a write is in flight, and completes
successfully only before transport teardown. -/
inductive Step (fs : String → FileOpenResult) (dr : String) :
    Act → Session → Session → Prop
  | read_ok {s : Session} {req : Request} {lim : Nat} :
      s.readInFlight = true → s.parser = some lim → req.body.length ≤ lim →
      Step fs dr (Act.readOk req) s (on_read fs dr s ErrorCode.ok req)
  | read_eof {s : Session} {req : Request} :
      s.readInFlight = true →
      Step fs dr Act.readEof s (on_read fs dr s ErrorCode.endOfStream req)
  | read_over {s : Session} {req : Request} {lim : Nat} :
      s.readInFlight = true → s.parser = some lim → req.body.length > lim →
      Step fs dr (Act.readErr ErrorCode.bodyLimitExceeded req) s
        (on_read fs dr s ErrorCode.bodyLimitExceeded req)
  | read_fail {s : Session} {req : Request} {ec : ErrorCode} :
      s.readInFlight = true → ec ≠ ErrorCode.ok → ec ≠ ErrorCode.endOfStream →
      ec ≠ ErrorCode.bodyLimitExceeded →
      Step fs dr (Act.readErr ec req) s (on_read fs dr s ec req)
  | write_ok {s : Session} {ka : Bool} :
      s.writeKA = some ka → s.closedEof = false →
      Step fs dr (Act.writeOk ka) s (on_write s ka ErrorCode.ok)
  | write_fail {s : Session} {ka : Bool} {ec : ErrorCode} :
      s.writeKA = some ka → ec ≠ ErrorCode.ok →
      Step fs dr (Act.writeErr ec ka) s (on_write s ka ec)

/-- Session states reachable from the fresh session by completion handlers. -/
inductive Reachable (fs : String → FileOpenResult) (dr : String) : Session → Prop
  | init : Reachable fs dr initSession
  | step {s t : Session} {a : Act} :
      Reachable fs dr s → Step fs dr a s t → Reachable fs dr t

/-- Result of protocol detection: which path was chosen and the detection
buffer handed to it. -/
structure Handoff where
  toTls : Bool
  buf : List Nat


/-- include/http/detect_session.hpp, on_detect (success path): the detection
buffer is moved, unchanged, into the chosen session type. -/
def on_detect (result : Bool) (buf : List Nat) : Handoff :=
  { toTls := result, buf := buf }

/-- include/http/ssl_http_session.hpp, on_handshake: the prefix of the buffer
the buffered handshake reports as consumed (bytes_used). -/
def handshake_used (buf : List Nat) (bytes_used : Nat) : List Nat :=
  List.take bytes_used buf

/-- include/http/ssl_http_session.hpp, on_handshake: buffer_.consume(bytes_used)
leaves the unconsumed remainder for the HTTP read loop. -/
def handshake_consume (buf : List Nat) (bytes_used : Nat) : List Nat :=
  List.drop bytes_used buf

/-- include/http/http_session.hpp, do_read: http::async_read drains the
carried-over session buffer before reading further bytes from the network, so
the first parse sees the buffer followed by the stream. -/
def first_read_input (buf streamBytes : List Nat) : List Nat :=
  buf ++ streamBytes

/-- Outcomes of the four acceptor-setup calls in listener::listener. -/
structure AcceptorEnv where
  openEc : ErrorCode
  setOptionEc : ErrorCode
  bindEc : ErrorCode
  listenEc : ErrorCode


/-- include/http/listener.hpp, listener::listener: open, set_option, bind and
listen in order; a failing step logs through fail and returns early.  The Bool
records whether the acceptor ended up listening. -/
def listener_ctor (env : AcceptorEnv) : List String × Bool :=
  if env.openEc ≠ ErrorCode.ok then ((fail env.openEc "open").toList, false)
  else if env.setOptionEc ≠ ErrorCode.ok then
    ((fail env.setOptionEc "set_option").toList, false)
  else if env.bindEc ≠ ErrorCode.ok then ((fail env.bindEc "bind").toList, false)
  else if env.listenEc ≠ ErrorCode.ok then
    ((fail env.listenEc "listen").toList, false)
  else ([], true)

/-- src/main.cpp: the listener is constructed and run() is invoked on it
unconditionally, so the accept loop is armed whether or not setup succeeded. -/
def server_start (env : AcceptorEnv) : List String × Bool :=
  ((listener_ctor env).1, true)

/-- include/http/listener.hpp, on_accept over a running log and session count:
a failure is logged through fail, a success spawns a detect_session; either way
do_accept re-arms the loop. -/
def on_accept (ec : ErrorCode) (st : List String × Nat) : List String × Nat :=
  if ec ≠ ErrorCode.ok then (st.1 ++ (fail ec "accept").toList, st.2)
  else (st.1, st.2 + 1)

/-- The accept loop over a list of completion outcomes.  A non-listening
acceptor turns every completion into an error (async_accept on a dead acceptor
fails); the loop never stops re-arming. -/
def accept_loop (listening : Bool) (ecs : List ErrorCode) : List String × Nat :=
  ecs.foldl (fun st ec => on_accept (if listening then ec else ErrorCode.other 9) st)
    ([], 0)

/-- State of one websocket_session: the read buffer, the text flag of the last
message, which async operation is armed, whether the peer closed, and the log
of fail lines. -/
structure WsState where
  buffer : List Nat
  textFlag : Bool
  readArmed : Bool
  writeArmed : Bool
  peerClosed : Bool
  log : List String


/-- include/websocket/websocket_session.hpp, do_read: arm an async_read. -/
def ws_do_read (s : WsState) : WsState :=
  { s with readArmed := true }

/-- include/websocket/websocket_session.hpp, on_read: peer closure ends the
loop silently; any other error goes through fail; success echoes the payload
back, preserving its text/binary flag. -/
def ws_on_read (s : WsState) (ec : ErrorCode) (msg : List Nat) (gotText : Bool) :
    WsState :=
  let s0 := { s with readArmed := false }
  if ec = ErrorCode.wsClosed then { s0 with peerClosed := true }
  else if ec = ErrorCode.ok then
    { s0 with buffer := msg, textFlag := gotText, writeArmed := true }
  else { s0 with log := s0.log ++ (fail ec "read").toList }

/-- include/websocket/websocket_session.hpp, on_write: an error goes through
fail; success clears the buffer and reads again. -/
def ws_on_write (s : WsState) (ec : ErrorCode) : WsState :=
  let s0 := { s with writeArmed := false }
  if ec = ErrorCode.ok then ws_do_read { s0 with buffer := [] }
  else { s0 with log := s0.log ++ (fail ec "write").toList }

/-- include/websocket/websocket_session.hpp, on_accept: an error goes through
fail; success starts the echo loop. -/
def ws_on_accept (s : WsState) (ec : ErrorCode) : WsState :=
  if ec = ErrorCode.ok then ws_do_read s
  else { s with log := s.log ++ (fail ec "accept").toList }

/-- include/http/detect_session.hpp, on_detect error branch: the failure is
reported through fail and the connection is dropped. -/
def detect_fail_log (ec : ErrorCode) : List String :=
  if ec ≠ ErrorCode.ok then (fail ec "detect").toList else []

/-- include/http/ssl_http_session.hpp, on_handshake error branch. -/
def handshake_fail_log (ec : ErrorCode) : List String :=
  if ec ≠ ErrorCode.ok then (fail ec "handshake").toList else []

/-- include/http/ssl_http_session.hpp, on_shutdown error branch. -/
def shutdown_fail_log (ec : ErrorCode) : List String :=
  if ec ≠ ErrorCode.ok then (fail ec "shutdown").toList else []

/-- A file system on which every open reports no such file. -/
def fs0 : String → FileOpenResult := fun _ => FileOpenResult.noSuchFile

/-- A plain keep-alive GET request for the root. -/
def reqGet : Request :=
  { method := Verb.get, target := "/", version := 11, keepAlive := true,
    body := "", isUpgrade := false }

/-- A WebSocket upgrade request. -/
def reqUpgrade : Request :=
  { method := Verb.get, target := "/ws", version := 11, keepAlive := true,
    body := "", isUpgrade := true }

/-- A POST request. -/
def reqPost : Request :=
  { method := Verb.post, target := "/x", version := 11, keepAlive := true,
    body := "", isUpgrade := false }

/-- A PUT request. -/
def reqPut : Request :=
  { method := Verb.put, target := "/x", version := 11, keepAlive := true,
    body := "", isUpgrade := false }

/-- A DELETE request. -/
def reqDelete : Request :=
  { method := Verb.delete, target := "/x", version := 11, keepAlive := true,
    body := "", isUpgrade := false }

/-- A GET request with a parent-directory traversal target. -/
def reqTraversal : Request :=
  { method := Verb.get, target := "/../secret", version := 11, keepAlive := true,
    body := "", isUpgrade := false }

/-- A GET request whose body is one byte over the 10000-byte ceiling. -/
def reqBig : Request :=
  { method := Verb.get, target := "/", version := 11, keepAlive := true,
    body := String.mk (List.replicate 10001 'a'), isUpgrade := false }

/-- A plain 200 response used as a fixture. -/
def respA : Response :=
  { status := 200, contentType := "text/html", body := "", contentLength := 0,
    keepAlive := true }

/-- A close-directive response used as a fixture. -/
def respClose : Response :=
  { status := 200, contentType := "text/html", body := "", contentLength := 0,
    keepAlive := false }

/-- A session with one close-directive response in flight. -/
def sClose : Session :=
  { queue := [respClose], parser := some 10000, readInFlight := false,
    writeKA := some false, timeout := some 30, closedEof := false,
    wsStarted := false, pushedLog := [respClose], writtenLog := [],
    failLog := [] }

/-- A torn-down session with a read still in flight. -/
def sEof : Session :=
  { queue := [], parser := some 10000, readInFlight := true, writeKA := none,
    timeout := some 30, closedEof := true, wsStarted := false, pushedLog := [],
    writtenLog := [], failLog := [] }

/-- A listener environment whose bind fails. -/
def envBindFail : AcceptorEnv :=
  { openEc := ErrorCode.ok, setOptionEc := ErrorCode.ok,
    bindEc := ErrorCode.other 98, listenEc := ErrorCode.ok }

/-- do_write only changes the captured keep-alive flag. -/
theorem do_write_queue (s : Session) : (do_write s).queue = s.queue := by
  obtain ⟨q, p, ri, w, ti, c, ws, pl, wl, fl⟩ := s
  cases q <;> rfl

/-- do_write leaves the parser untouched. -/
theorem do_write_limit (s : Session) : (do_write s).parser = s.parser := by
  obtain ⟨q, p, ri, w, ti, c, ws, pl, wl, fl⟩ := s
  cases q <;> rfl

/-- do_write leaves the read flag untouched. -/
theorem do_write_readInFlight (s : Session) :
    (do_write s).readInFlight = s.readInFlight := by
  obtain ⟨q, p, ri, w, ti, c, ws, pl, wl, fl⟩ := s
  cases q <;> rfl

/-- do_write leaves the timeout untouched. -/
theorem do_write_timeout (s : Session) : (do_write s).timeout = s.timeout := by
  obtain ⟨q, p, ri, w, ti, c, ws, pl, wl, fl⟩ := s
  cases q <;> rfl

/-- do_write leaves the teardown flag untouched. -/
theorem do_write_closedEof (s : Session) : (do_write s).closedEof = s.closedEof := by
  obtain ⟨q, p, ri, w, ti, c, ws, pl, wl, fl⟩ := s
  cases q <;> rfl

/-- do_write leaves the WebSocket hand-off flag untouched. -/
theorem do_write_wsStarted (s : Session) : (do_write s).wsStarted = s.wsStarted := by
  obtain ⟨q, p, ri, w, ti, c, ws, pl, wl, fl⟩ := s
  cases q <;> rfl

/-- do_write leaves the push log untouched. -/
theorem do_write_pushedLog (s : Session) : (do_write s).pushedLog = s.pushedLog := by
  obtain ⟨q, p, ri, w, ti, c, ws, pl, wl, fl⟩ := s
  cases q <;> rfl

/-- do_write leaves the write log untouched. -/
theorem do_write_writtenLog (s : Session) :
    (do_write s).writtenLog = s.writtenLog := by
  obtain ⟨q, p, ri, w, ti, c, ws, pl, wl, fl⟩ := s
  cases q <;> rfl

/-- do_write leaves the failure log untouched. -/
theorem do_write_failLog (s : Session) : (do_write s).failLog = s.failLog := by
  obtain ⟨q, p, ri, w, ti, c, ws, pl, wl, fl⟩ := s
  cases q <;> rfl

attribute [simp] do_write_queue do_write_limit do_write_readInFlight
attribute [simp] do_write_timeout do_write_closedEof do_write_wsStarted
attribute [simp] do_write_pushedLog do_write_writtenLog do_write_failLog

/-- queue_write appends the response to the back of the queue. -/
theorem queue_write_queue (r : Response) (s : Session) :
    (queue_write r s).queue = s.queue ++ [r] := by
  simp only [queue_write]
  split <;> simp

/-- queue_write records the response in the push log. -/
theorem queue_write_pushedLog (r : Response) (s : Session) :
    (queue_write r s).pushedLog = s.pushedLog ++ [r] := by
  simp only [queue_write]
  split <;> simp

/-- queue_write leaves the write log untouched. -/
theorem queue_write_writtenLog (r : Response) (s : Session) :
    (queue_write r s).writtenLog = s.writtenLog := by
  simp only [queue_write]
  split <;> simp

/-- queue_write leaves the parser untouched. -/
theorem queue_write_limit (r : Response) (s : Session) :
    (queue_write r s).parser = s.parser := by
  simp only [queue_write]
  split <;> simp

/-- queue_write leaves the read flag untouched. -/
theorem queue_write_readInFlight (r : Response) (s : Session) :
    (queue_write r s).readInFlight = s.readInFlight := by
  simp only [queue_write]
  split <;> simp

/-- queue_write leaves the timeout untouched. -/
theorem queue_write_timeout (r : Response) (s : Session) :
    (queue_write r s).timeout = s.timeout := by
  simp only [queue_write]
  split <;> simp

/-- queue_write leaves the teardown flag untouched. -/
theorem queue_write_closedEof (r : Response) (s : Session) :
    (queue_write r s).closedEof = s.closedEof := by
  simp only [queue_write]
  split <;> simp

/-- queue_write leaves the WebSocket hand-off flag untouched. -/
theorem queue_write_wsStarted (r : Response) (s : Session) :
    (queue_write r s).wsStarted = s.wsStarted := by
  simp only [queue_write]
  split <;> simp

/-- queue_write leaves the failure log untouched. -/
theorem queue_write_failLog (r : Response) (s : Session) :
    (queue_write r s).failLog = s.failLog := by
  simp only [queue_write]
  split <;> simp

attribute [simp] queue_write_queue queue_write_pushedLog queue_write_writtenLog
attribute [simp] queue_write_limit queue_write_readInFlight queue_write_timeout
attribute [simp] queue_write_closedEof queue_write_wsStarted queue_write_failLog

/-- Re-assembling a list from its optional head and its tail. -/
theorem head_cons_tail (l : List Response) : l.head?.toList ++ l.tail = l := by
  cases l <;> rfl

/-- on_read at end-of-stream: transport teardown, nothing else. -/
theorem on_read_eof_eq (fs : String → FileOpenResult) (dr : String)
    (s : Session) (req : Request) :
    on_read fs dr s ErrorCode.endOfStream req =
      do_eof { s with readInFlight := false } := rfl

/-- on_read at a non-eof error: the failure is reported, nothing is queued. -/
theorem on_read_err_eq (fs : String → FileOpenResult) (dr : String)
    (s : Session) (req : Request) (ec : ErrorCode)
    (h1 : ec ≠ ErrorCode.endOfStream) (h2 : ec ≠ ErrorCode.ok) :
    on_read fs dr s ec req =
      { s with readInFlight := false,
               failLog := s.failLog ++ (fail ec "read").toList } := by
  dsimp only [on_read]
  rw [if_neg h1, if_neg h2]

/-- on_read at a successful upgrade request: disable the timeout and retire
into the WebSocket hand-off. -/
theorem on_read_upgrade_eq (fs : String → FileOpenResult) (dr : String)
    (s : Session) (req : Request) (hu : req.isUpgrade = true) :
    on_read fs dr s ErrorCode.ok req =
      { s with readInFlight := false, timeout := none, wsStarted := true } := by
  dsimp only [on_read]
  rw [if_pos hu]
  rfl

/-- on_read at a successful ordinary request: handle, queue, and read again
only while the queue is below the limit. -/
theorem on_read_plain_eq (fs : String → FileOpenResult) (dr : String)
    (s : Session) (req : Request) (hu : req.isUpgrade = false) :
    on_read fs dr s ErrorCode.ok req =
      (if s.queue.length + 1 < queue_limit then
        do_read (queue_write (handle_request fs dr req) { s with readInFlight := false })
       else queue_write (handle_request fs dr req) { s with readInFlight := false }) := by
  simp [on_read, hu]

/-- do_read leaves the queue untouched. -/
theorem do_read_queue (s : Session) : (do_read s).queue = s.queue := rfl

/-- do_read installs the 10000-byte parser ceiling. -/
theorem do_read_limit (s : Session) : (do_read s).parser = some 10000 := rfl

/-- do_read arms the read. -/
theorem do_read_readInFlight (s : Session) : (do_read s).readInFlight = true := rfl

/-- do_read leaves the push log untouched. -/
theorem do_read_pushedLog (s : Session) : (do_read s).pushedLog = s.pushedLog := rfl

/-- do_read leaves the write log untouched. -/
theorem do_read_writtenLog (s : Session) :
    (do_read s).writtenLog = s.writtenLog := rfl

/-- do_read leaves the teardown flag untouched. -/
theorem do_read_closedEof (s : Session) : (do_read s).closedEof = s.closedEof := rfl

/-- do_read leaves the WebSocket hand-off flag untouched. -/
theorem do_read_wsStarted (s : Session) : (do_read s).wsStarted = s.wsStarted := rfl

/-- do_read leaves the failure log untouched. -/
theorem do_read_failLog (s : Session) : (do_read s).failLog = s.failLog := rfl

/-- An ordinary-request read appends the handled response to the queue. -/
theorem on_read_plain_queue (fs : String → FileOpenResult) (dr : String)
    (s : Session) (req : Request) (hu : req.isUpgrade = false) :
    (on_read fs dr s ErrorCode.ok req).queue
      = s.queue ++ [handle_request fs dr req] := by
  rw [on_read_plain_eq fs dr s req hu, apply_ite Session.queue, do_read_queue,
      ite_self, queue_write_queue]

/-- An ordinary-request read records exactly one pushed response. -/
theorem on_read_plain_pushedLog (fs : String → FileOpenResult) (dr : String)
    (s : Session) (req : Request) (hu : req.isUpgrade = false) :
    (on_read fs dr s ErrorCode.ok req).pushedLog
      = s.pushedLog ++ [handle_request fs dr req] := by
  rw [on_read_plain_eq fs dr s req hu, apply_ite Session.pushedLog,
      do_read_pushedLog, ite_self, queue_write_pushedLog]

/-- An ordinary-request read transmits nothing by itself. -/
theorem on_read_plain_writtenLog (fs : String → FileOpenResult) (dr : String)
    (s : Session) (req : Request) (hu : req.isUpgrade = false) :
    (on_read fs dr s ErrorCode.ok req).writtenLog = s.writtenLog := by
  rw [on_read_plain_eq fs dr s req hu, apply_ite Session.writtenLog,
      do_read_writtenLog, ite_self, queue_write_writtenLog]

/-- An ordinary-request read arms the next read exactly while the queue is
below the limit after the push. -/
theorem on_read_plain_readInFlight (fs : String → FileOpenResult) (dr : String)
    (s : Session) (req : Request) (hu : req.isUpgrade = false) :
    (on_read fs dr s ErrorCode.ok req).readInFlight
      = (if s.queue.length + 1 < queue_limit then true else false) := by
  rw [on_read_plain_eq fs dr s req hu, apply_ite Session.readInFlight,
      do_read_readInFlight, queue_write_readInFlight]

/-- An ordinary-request read installs a fresh parser only when it reads again. -/
theorem on_read_plain_limit (fs : String → FileOpenResult) (dr : String)
    (s : Session) (req : Request) (hu : req.isUpgrade = false) :
    (on_read fs dr s ErrorCode.ok req).parser
      = (if s.queue.length + 1 < queue_limit then some 10000 else s.parser) := by
  rw [on_read_plain_eq fs dr s req hu, apply_ite Session.parser,
      do_read_limit, queue_write_limit]

/-- An ordinary-request read does not tear the transport down. -/
theorem on_read_plain_closedEof (fs : String → FileOpenResult) (dr : String)
    (s : Session) (req : Request) (hu : req.isUpgrade = false) :
    (on_read fs dr s ErrorCode.ok req).closedEof = s.closedEof := by
  rw [on_read_plain_eq fs dr s req hu, apply_ite Session.closedEof,
      do_read_closedEof, ite_self, queue_write_closedEof]

/-- An ordinary-request read starts no WebSocket session. -/
theorem on_read_plain_wsStarted (fs : String → FileOpenResult) (dr : String)
    (s : Session) (req : Request) (hu : req.isUpgrade = false) :
    (on_read fs dr s ErrorCode.ok req).wsStarted = s.wsStarted := by
  rw [on_read_plain_eq fs dr s req hu, apply_ite Session.wsStarted,
      do_read_wsStarted, ite_self, queue_write_wsStarted]

/-- An ordinary-request read logs no failure. -/
theorem on_read_plain_failLog (fs : String → FileOpenResult) (dr : String)
    (s : Session) (req : Request) (hu : req.isUpgrade = false) :
    (on_read fs dr s ErrorCode.ok req).failLog = s.failLog := by
  rw [on_read_plain_eq fs dr s req hu, apply_ite Session.failLog,
      do_read_failLog, ite_self, queue_write_failLog]

/-- on_write at an error: the failure is reported, the queue is untouched. -/
theorem on_write_err_eq (s : Session) (ka : Bool) (ec : ErrorCode)
    (h : ec ≠ ErrorCode.ok) :
    on_write s ka ec =
      { s with writeKA := none,
               failLog := s.failLog ++ (fail ec "write").toList } := by
  simp [on_write, h]

/-- on_write after a close-directive response: teardown before any pop. -/
theorem on_write_close_eq (s : Session) :
    on_write s false ErrorCode.ok = do_eof { s with writeKA := none } := by
  simp [on_write]

/-- do_write written out: only the captured keep-alive flag changes, and only
when the queue is not empty. -/
theorem do_write_eq (s : Session) :
    do_write s = { s with writeKA := match s.queue.head? with
                                     | some r => some r.keepAlive
                                     | none => s.writeKA } := by
  obtain ⟨q, p, ri, w, ti, c, ws, pl, wl, fl⟩ := s
  cases q <;> rfl

/-- A keep-alive write completion written out: the source's structure with its
single branch on the queue being at the limit, the written front popped and
logged, and the write loop continued on the remaining queue. -/
theorem on_write_ka_eq (s : Session) :
    on_write s true ErrorCode.ok =
      do_write
        { (if s.queue.length = queue_limit
           then do_read { s with writeKA := none }
           else ({ s with writeKA := none } : Session)) with
          queue := s.queue.tail,
          writtenLog := s.writtenLog ++ s.queue.head?.toList } := by
  obtain ⟨q, p, ri, w, ti, c, ws, pl, wl, fl⟩ := s
  by_cases h : q.length = queue_limit
  · dsimp only [on_write]
    rw [if_pos h]
    rfl
  · dsimp only [on_write]
    rw [if_neg h]
    rfl

/-- on_write after a keep-alive response pops the written front. -/
theorem on_write_ka_queue (s : Session) :
    (on_write s true ErrorCode.ok).queue = s.queue.tail :=
  (congrArg Session.queue (on_write_ka_eq s)).trans (do_write_queue _)

/-- on_write after a keep-alive response records the transmitted front. -/
theorem on_write_ka_writtenLog (s : Session) :
    (on_write s true ErrorCode.ok).writtenLog =
      s.writtenLog ++ s.queue.head?.toList :=
  (congrArg Session.writtenLog (on_write_ka_eq s)).trans (do_write_writtenLog _)

/-- on_write after a keep-alive response does not push anything. -/
theorem on_write_ka_pushedLog (s : Session) :
    (on_write s true ErrorCode.ok).pushedLog = s.pushedLog :=
  (congrArg Session.pushedLog (on_write_ka_eq s)).trans
    ((do_write_pushedLog _).trans
      ((apply_ite Session.pushedLog (s.queue.length = queue_limit)
          (do_read { s with writeKA := none }) { s with writeKA := none }).trans
        (ite_self s.pushedLog)))

/-- A keep-alive write completion re-arms reading exactly when the queue was at
the limit. -/
theorem on_write_ka_readInFlight (s : Session) :
    (on_write s true ErrorCode.ok).readInFlight =
      (if s.queue.length = queue_limit then true else s.readInFlight) :=
  (congrArg Session.readInFlight (on_write_ka_eq s)).trans
    ((do_write_readInFlight _).trans
      (apply_ite Session.readInFlight (s.queue.length = queue_limit)
        (do_read { s with writeKA := none }) { s with writeKA := none }))

/-- A keep-alive write completion installs a fresh parser only when it re-arms
reading. -/
theorem on_write_ka_limit (s : Session) :
    (on_write s true ErrorCode.ok).parser =
      (if s.queue.length = queue_limit then some 10000 else s.parser) :=
  (congrArg Session.parser (on_write_ka_eq s)).trans
    ((do_write_limit _).trans
      (apply_ite Session.parser (s.queue.length = queue_limit)
        (do_read { s with writeKA := none }) { s with writeKA := none }))

/-- A keep-alive write completion does not tear the transport down. -/
theorem on_write_ka_closedEof (s : Session) :
    (on_write s true ErrorCode.ok).closedEof = s.closedEof :=
  (congrArg Session.closedEof (on_write_ka_eq s)).trans
    ((do_write_closedEof _).trans
      ((apply_ite Session.closedEof (s.queue.length = queue_limit)
          (do_read { s with writeKA := none }) { s with writeKA := none }).trans
        (ite_self s.closedEof)))

/-- A keep-alive write completion does not touch the failure log. -/
theorem on_write_ka_failLog (s : Session) :
    (on_write s true ErrorCode.ok).failLog = s.failLog :=
  (congrArg Session.failLog (on_write_ka_eq s)).trans
    ((do_write_failLog _).trans
      ((apply_ite Session.failLog (s.queue.length = queue_limit)
          (do_read { s with writeKA := none }) { s with writeKA := none }).trans
        (ite_self s.failLog)))

/-- The session invariant: the queue respects its capacity, a read is in
flight only below capacity, an in-flight read always has the 10000-byte
parser installed, and the push log is exactly the write log followed by the
queue contents. -/
def SessionInv (s : Session) : Prop :=
  s.queue.length ≤ queue_limit ∧
  (s.readInFlight = true → s.queue.length < queue_limit) ∧
  (s.readInFlight = true → s.parser = some 10000) ∧
  s.pushedLog = s.writtenLog ++ s.queue

/-- The fresh session satisfies the invariant. -/
theorem sessionInv_init : SessionInv initSession := by
  simp [SessionInv, initSession, do_read, queue_limit]

/-- Every completion handler preserves the session invariant. -/
theorem sessionInv_step {fs : String → FileOpenResult} {dr : String} {a : Act}
    {s t : Session} (hs : SessionInv s) (h : Step fs dr a s t) : SessionInv t := by
  obtain ⟨h1, h2, h3, h4⟩ := hs
  cases h with
  | read_ok hr hp hb =>
    rename_i req lim
    have hlt : s.queue.length < queue_limit := h2 hr
    by_cases hu : req.isUpgrade = true
    · rw [on_read_upgrade_eq fs dr s req hu]
      exact ⟨h1, fun hri => (Bool.false_ne_true hri).elim,
             fun hri => (Bool.false_ne_true hri).elim, h4⟩
    · have hu0 : req.isUpgrade = false := by simpa using hu
      have hq := on_read_plain_queue fs dr s req hu0
      have hri := on_read_plain_readInFlight fs dr s req hu0
      refine ⟨?_, ?_, ?_, ?_⟩
      · rw [hq, List.length_append, List.length_cons, List.length_nil]
        exact hlt
      · rw [hri, hq, List.length_append, List.length_cons, List.length_nil]
        by_cases hc : s.queue.length + 1 < queue_limit
        · intro
          exact hc
        · rw [if_neg hc]
          intro hfalse
          exact (Bool.false_ne_true hfalse).elim
      · rw [hri, on_read_plain_limit fs dr s req hu0]
        by_cases hc : s.queue.length + 1 < queue_limit
        · rw [if_pos hc, if_pos hc]
          intro
          rfl
        · rw [if_neg hc]
          intro hfalse
          exact (Bool.false_ne_true hfalse).elim
      · rw [on_read_plain_pushedLog fs dr s req hu0,
            on_read_plain_writtenLog fs dr s req hu0, hq, h4, List.append_assoc]
  | read_eof hr =>
    exact ⟨h1, fun hri => (Bool.false_ne_true hri).elim,
           fun hri => (Bool.false_ne_true hri).elim, h4⟩
  | read_over hr hp hb =>
    exact ⟨h1, fun hri => (Bool.false_ne_true hri).elim,
           fun hri => (Bool.false_ne_true hri).elim, h4⟩
  | read_fail hr hok heof hlim =>
    rw [on_read_err_eq fs dr s _ _ heof hok]
    exact ⟨h1, fun hri => (Bool.false_ne_true hri).elim,
           fun hri => (Bool.false_ne_true hri).elim, h4⟩
  | write_ok hw hce =>
    rename_i ka
    cases ka with
    | false =>
      exact ⟨h1, h2, h3, h4⟩
    | true =>
      refine ⟨?_, ?_, ?_, ?_⟩
      · rw [on_write_ka_queue, List.length_tail]
        exact Nat.le_trans (Nat.sub_le s.queue.length 1) h1
      · rw [on_write_ka_readInFlight, on_write_ka_queue, List.length_tail]
        by_cases hq : s.queue.length = queue_limit
        · rw [if_pos hq, hq]
          intro
          decide
        · rw [if_neg hq]
          intro hri
          exact Nat.lt_of_le_of_lt (Nat.sub_le s.queue.length 1) (h2 hri)
      · rw [on_write_ka_limit, on_write_ka_readInFlight]
        by_cases hq : s.queue.length = queue_limit
        · rw [if_pos hq, if_pos hq]
          intro
          rfl
        · rw [if_neg hq, if_neg hq]
          exact h3
      · rw [on_write_ka_pushedLog, on_write_ka_writtenLog, on_write_ka_queue,
            List.append_assoc, head_cons_tail]
        exact h4
  | write_fail hw hok =>
    rw [on_write_err_eq s _ _ hok]
    exact ⟨h1, h2, h3, h4⟩

/-- Every reachable session state satisfies the invariant. -/
theorem sessionInv_reach {fs : String → FileOpenResult} {dr : String}
    {s : Session} (h : Reachable fs dr s) : SessionInv s := by
  induction h with
  | init => exact sessionInv_init
  | step _ hstep ih => exact sessionInv_step ih hstep


/-- Claim C1: in every reachable session state the pending response queue holds
at most 8 responses and, whenever a read is outstanding, the queue is strictly
below capacity (so at capacity no read is in flight); in on_read a next read is
outstanding exactly when the queue is below 8 after the push, and in on_write a
read is armed exactly when the completed write found the queue at 8. -/
theorem claim_c1_backpressure :
    (∀ (fs : String → FileOpenResult) (dr : String) (s : Session),
       Reachable fs dr s →
         s.queue.length ≤ queue_limit ∧
         (s.readInFlight = true → s.queue.length < queue_limit)) ∧
    (∀ (fs : String → FileOpenResult) (dr : String) (s : Session) (req : Request),
       req.isUpgrade = false →
         ((on_read fs dr s ErrorCode.ok req).readInFlight = true ↔
          (on_read fs dr s ErrorCode.ok req).queue.length < queue_limit)) ∧
    (∀ s : Session,
       (on_write s true ErrorCode.ok).readInFlight =
         (decide (s.queue.length = queue_limit) || s.readInFlight)) := by
  refine ⟨?_, ?_, ?_⟩
  · intro fs dr s h
    obtain ⟨h1, h2, _, _⟩ := sessionInv_reach h
    exact ⟨h1, h2⟩
  · intro fs dr s req hu
    rw [on_read_plain_readInFlight fs dr s req hu,
        on_read_plain_queue fs dr s req hu,
        List.length_append, List.length_cons, List.length_nil]
    by_cases hc : s.queue.length + 1 < queue_limit
    · rw [if_pos hc]
      exact ⟨fun _ => hc, fun _ => rfl⟩
    · rw [if_neg hc]
      constructor
      · intro hfalse
        exact (Bool.false_ne_true hfalse).elim
      · intro hlt
        exact absurd hlt hc
  · intro s
    rw [on_write_ka_readInFlight]
    by_cases hq : s.queue.length = queue_limit <;> simp [hq]

/-- Witness for claim C1 at the fresh session and a concrete GET request. -/
theorem claim_c1_backpressure_witness :
    initSession.queue.length ≤ queue_limit ∧
    initSession.queue.length < queue_limit ∧
    ((on_read fs0 "." initSession ErrorCode.ok reqGet).readInFlight = true ↔
     (on_read fs0 "." initSession ErrorCode.ok reqGet).queue.length < queue_limit) ∧
    (on_write initSession true ErrorCode.ok).readInFlight =
      (decide (initSession.queue.length = queue_limit) || initSession.readInFlight) :=
  ⟨(claim_c1_backpressure.1 fs0 "." initSession Reachable.init).1,
   (claim_c1_backpressure.1 fs0 "." initSession Reachable.init).2 rfl,
   claim_c1_backpressure.2.1 fs0 "." initSession reqGet rfl,
   claim_c1_backpressure.2.2 initSession⟩

/-- Claim C2: in every reachable session state the sequence of responses pushed
for completed requests equals the transmitted responses followed by the still
queued ones, so transmission order is exactly completion order, 1:1; and the
write loop is started by a push exactly when the queue was empty before it. -/
theorem claim_c2_fifo :
    (∀ (fs : String → FileOpenResult) (dr : String) (s : Session),
       Reachable fs dr s → s.pushedLog = s.writtenLog ++ s.queue) ∧
    (∀ (r : Response) (s : Session), s.writeKA = none →
       ((queue_write r s).writeKA ≠ none ↔ s.queue = [])) := by
  constructor
  · intro fs dr s h
    exact (sessionInv_reach h).2.2.2
  · intro r s hw
    obtain ⟨q, p, ri, w, ti, c, ws, pl, wl, fl⟩ := s
    simp only at hw
    subst hw
    cases q with
    | nil =>
      exact Iff.intro (fun _ => rfl) (fun _ hh => Option.noConfusion hh)
    | cons a t =>
      have hlen : ((a :: t) ++ [r] : List Response).length ≠ 1 := by
        rw [List.length_append, List.length_cons, List.length_cons, List.length_nil]
        omega
      dsimp only [queue_write]
      rw [if_neg hlen]
      exact Iff.intro (fun hh => absurd rfl hh) (fun hh => List.noConfusion hh)

/-- Witness for claim C2 at the fresh session and a concrete response. -/
theorem claim_c2_fifo_witness :
    initSession.pushedLog = initSession.writtenLog ++ initSession.queue ∧
    ((queue_write respA initSession).writeKA ≠ none ↔ initSession.queue = []) :=
  ⟨claim_c2_fifo.1 fs0 "." initSession Reachable.init,
   claim_c2_fifo.2 respA initSession rfl⟩

/-- Claim C3: detection bytes are neither re-delivered nor dropped: the plain
path hands the buffer unchanged to the first HTTP read, and on the TLS path the
handshake consumes exactly the reported prefix while the first HTTP read sees
the remainder before any network byte, together covering the original bytes
exactly once. -/
theorem claim_c3_handoff :
    ∀ (buf streamBytes : List Nat) (bytes_used : Nat),
      bytes_used ≤ buf.length →
        first_read_input (on_detect false buf).buf streamBytes = buf ++ streamBytes ∧
        handshake_used (on_detect true buf).buf bytes_used ++
          first_read_input (handshake_consume (on_detect true buf).buf bytes_used)
            streamBytes = buf ++ streamBytes := by
  intro buf sb n hn
  refine ⟨rfl, ?_⟩
  simp only [handshake_used, handshake_consume, first_read_input, on_detect]
  rw [← List.append_assoc, List.take_append_drop]

/-- Witness for claim C3 on a concrete TLS-looking buffer split at 2 bytes. -/
theorem claim_c3_handoff_witness :
    first_read_input (on_detect false [22, 3, 1]).buf [1, 2] = [22, 3, 1] ++ [1, 2] ∧
    handshake_used (on_detect true [22, 3, 1]).buf 2 ++
      first_read_input (handshake_consume (on_detect true [22, 3, 1]).buf 2) [1, 2]
      = [22, 3, 1] ++ [1, 2] :=
  claim_c3_handoff [22, 3, 1] [1, 2] 2 (by decide)

/-- Claim C4: a successfully read request has exactly one of two outcomes: an
upgrade request disables the idle-timeout, retires into the WebSocket hand-off,
and neither queues a response nor arms any further read or write; an ordinary
request queues exactly one response, produced by handle_request, and starts no
WebSocket session. -/
theorem claim_c4_upgrade_exclusive :
    ∀ (fs : String → FileOpenResult) (dr : String) (s : Session) (req : Request),
      s.wsStarted = false →
        (req.isUpgrade = true →
          (on_read fs dr s ErrorCode.ok req).wsStarted = true ∧
          (on_read fs dr s ErrorCode.ok req).timeout = none ∧
          (on_read fs dr s ErrorCode.ok req).queue = s.queue ∧
          (on_read fs dr s ErrorCode.ok req).pushedLog = s.pushedLog ∧
          (on_read fs dr s ErrorCode.ok req).readInFlight = false ∧
          (on_read fs dr s ErrorCode.ok req).writeKA = s.writeKA) ∧
        (req.isUpgrade = false →
          (on_read fs dr s ErrorCode.ok req).wsStarted = false ∧
          (on_read fs dr s ErrorCode.ok req).pushedLog
            = s.pushedLog ++ [handle_request fs dr req]) := by
  intro fs dr s req hws
  constructor
  · intro hu
    rw [on_read_upgrade_eq fs dr s req hu]
    simp
  · intro hu
    exact ⟨by rw [on_read_plain_wsStarted fs dr s req hu, hws],
           on_read_plain_pushedLog fs dr s req hu⟩

/-- Witness for claim C4 at the fresh session for a concrete upgrade request
and a concrete ordinary request. -/
theorem claim_c4_upgrade_exclusive_witness :
    ((on_read fs0 "." initSession ErrorCode.ok reqUpgrade).wsStarted = true ∧
     (on_read fs0 "." initSession ErrorCode.ok reqUpgrade).timeout = none ∧
     (on_read fs0 "." initSession ErrorCode.ok reqUpgrade).queue = initSession.queue ∧
     (on_read fs0 "." initSession ErrorCode.ok reqUpgrade).pushedLog = initSession.pushedLog ∧
     (on_read fs0 "." initSession ErrorCode.ok reqUpgrade).readInFlight = false ∧
     (on_read fs0 "." initSession ErrorCode.ok reqUpgrade).writeKA = initSession.writeKA) ∧
    ((on_read fs0 "." initSession ErrorCode.ok reqGet).wsStarted = false ∧
     (on_read fs0 "." initSession ErrorCode.ok reqGet).pushedLog
       = initSession.pushedLog ++ [handle_request fs0 "." reqGet]) :=
  ⟨(claim_c4_upgrade_exclusive fs0 "." initSession reqUpgrade rfl).1 rfl,
   (claim_c4_upgrade_exclusive fs0 "." initSession reqGet rfl).2 rfl⟩

/-- Claim C5: a write completion whose captured directive is close performs
transport teardown immediately, without popping, so the queued responses are
retained but discarded with the session: after teardown no transition ever
grows the transmitted log, and teardown is never undone. -/
theorem claim_c5_close_teardown :
    (∀ s : Session,
       (on_write s false ErrorCode.ok).closedEof = true ∧
       (on_write s false ErrorCode.ok).queue = s.queue ∧
       (on_write s false ErrorCode.ok).writtenLog = s.writtenLog ∧
       (on_write s false ErrorCode.ok).writeKA = none) ∧
    (∀ (fs : String → FileOpenResult) (dr : String) (a : Act) (s t : Session),
       s.closedEof = true → Step fs dr a s t →
         t.writtenLog = s.writtenLog ∧ t.closedEof = true) := by
  constructor
  · intro s
    exact ⟨rfl, rfl, rfl, rfl⟩
  · intro fs dr a s t hce h
    cases h with
    | read_ok hr hp hb =>
      rename_i req lim
      by_cases hu : req.isUpgrade = true
      · rw [on_read_upgrade_eq fs dr s req hu]
        exact ⟨rfl, hce⟩
      · have hu0 : req.isUpgrade = false := by simpa using hu
        exact ⟨on_read_plain_writtenLog fs dr s req hu0,
               by rw [on_read_plain_closedEof fs dr s req hu0, hce]⟩
    | read_eof hr =>
      exact ⟨rfl, rfl⟩
    | read_over hr hp hb =>
      exact ⟨rfl, hce⟩
    | read_fail hr hok heof hlim =>
      rw [on_read_err_eq fs dr s _ _ heof hok]
      exact ⟨rfl, hce⟩
    | write_ok hw hc =>
      rw [hce] at hc
      cases hc
    | write_fail hw hok =>
      rw [on_write_err_eq s _ _ hok]
      exact ⟨rfl, hce⟩

/-- Witness for claim C5 at a session with a close-directive write in flight,
and a concrete step from a torn-down session. -/
theorem claim_c5_close_teardown_witness :
    ((on_write sClose false ErrorCode.ok).closedEof = true ∧
     (on_write sClose false ErrorCode.ok).queue = sClose.queue ∧
     (on_write sClose false ErrorCode.ok).writtenLog = sClose.writtenLog ∧
     (on_write sClose false ErrorCode.ok).writeKA = none) ∧
    ((on_read fs0 "." sEof ErrorCode.endOfStream reqGet).writtenLog = sEof.writtenLog ∧
     (on_read fs0 "." sEof ErrorCode.endOfStream reqGet).closedEof = true) :=
  ⟨claim_c5_close_teardown.1 sClose,
   claim_c5_close_teardown.2 fs0 "." Act.readEof sEof
     (on_read fs0 "." sEof ErrorCode.endOfStream reqGet) rfl
     (@Step.read_eof fs0 "." sEof reqGet rfl)⟩

/-- Claim C6: every read installs a fresh parser with the 10000-byte body
ceiling (an invariant of every reachable state with a read in flight), a read
only delivers a request whose body fits the ceiling, and a body-limit error
never reaches handle_request: nothing is queued and the failure is logged. -/
theorem claim_c6_body_limit :
    (∀ s : Session,
       (do_read s).parser = some 10000 ∧ (do_read s).readInFlight = true) ∧
    (∀ (fs : String → FileOpenResult) (dr : String) (s : Session),
       Reachable fs dr s → s.readInFlight = true → s.parser = some 10000) ∧
    (∀ (fs : String → FileOpenResult) (dr : String) (s t : Session) (req : Request),
       Reachable fs dr s → Step fs dr (Act.readOk req) s t →
         req.body.length ≤ 10000) ∧
    (∀ (fs : String → FileOpenResult) (dr : String) (s : Session) (req : Request),
       (on_read fs dr s ErrorCode.bodyLimitExceeded req).pushedLog = s.pushedLog ∧
       (on_read fs dr s ErrorCode.bodyLimitExceeded req).queue = s.queue ∧
       (on_read fs dr s ErrorCode.bodyLimitExceeded req).failLog
         = s.failLog ++ (fail ErrorCode.bodyLimitExceeded "read").toList) := by
  refine ⟨?_, ?_, ?_, ?_⟩
  · intro s
    simp [do_read]
  · intro fs dr s h hri
    exact (sessionInv_reach h).2.2.1 hri
  · intro fs dr s t req hreach hstep
    cases hstep with
    | read_ok hr hp hb =>
      have h10 := (sessionInv_reach hreach).2.2.1 hr
      rw [hp] at h10
      injection h10 with h10
      omega
  · intro fs dr s req
    exact ⟨rfl, rfl, rfl⟩

/-- Witness for claim C6 at the fresh session and a concrete in-bounds read. -/
theorem claim_c6_body_limit_witness :
    ((do_read initSession).parser = some 10000 ∧
     (do_read initSession).readInFlight = true) ∧
    initSession.parser = some 10000 ∧
    reqGet.body.length ≤ 10000 ∧
    ((on_read fs0 "." initSession ErrorCode.bodyLimitExceeded reqGet).pushedLog
       = initSession.pushedLog ∧
     (on_read fs0 "." initSession ErrorCode.bodyLimitExceeded reqGet).queue
       = initSession.queue ∧
     (on_read fs0 "." initSession ErrorCode.bodyLimitExceeded reqGet).failLog
       = initSession.failLog ++ (fail ErrorCode.bodyLimitExceeded "read").toList) :=
  ⟨claim_c6_body_limit.1 initSession,
   claim_c6_body_limit.2.1 fs0 "." initSession Reachable.init rfl,
   claim_c6_body_limit.2.2.1 fs0 "." initSession
     (on_read fs0 "." initSession ErrorCode.ok reqGet) reqGet Reachable.init
     (@Step.read_ok fs0 "." initSession reqGet 10000 rfl rfl (by decide)),
   claim_c6_body_limit.2.2.2 fs0 "." initSession reqGet⟩

/-- The oversized fixture request is one byte over the ceiling. -/
theorem reqBig_body_length : reqBig.body.length = 10001 := by
  show (String.mk (List.replicate 10001 'a')).length = 10001
  rw [show ∀ l : List Char, (String.mk l).length = l.length from fun l => rfl]
  exact List.length_replicate 10001 'a'

/-- Counterexample to claim C7 as stated: a request whose body is 10001 bytes
is a legal transition of the fresh session, yet the session produces no
response at all on that connection — the read fails, the failure is logged,
and nothing is queued — contradicting that every protocol violation in the
taxonomy is answered with a well-formed error response on the same
connection. -/
theorem claim_c7_counterexample :
    Step fs0 "." (Act.readErr ErrorCode.bodyLimitExceeded reqBig) initSession
      (on_read fs0 "." initSession ErrorCode.bodyLimitExceeded reqBig) ∧
    (on_read fs0 "." initSession ErrorCode.bodyLimitExceeded reqBig).pushedLog = [] ∧
    (on_read fs0 "." initSession ErrorCode.bodyLimitExceeded reqBig).queue = [] ∧
    (on_read fs0 "." initSession ErrorCode.bodyLimitExceeded reqBig).failLog
      = ["read: body limit exceeded"] ∧
    (on_read fs0 "." initSession ErrorCode.bodyLimitExceeded reqBig).readInFlight
      = false := by
  refine ⟨@Step.read_over fs0 "." initSession reqBig 10000 rfl rfl ?_, ?_, ?_, ?_, ?_⟩
  · rw [show reqBig.body.length = 10001 from reqBig_body_length]
    omega
  all_goals
    rw [on_read_err_eq fs0 "." initSession reqBig ErrorCode.bodyLimitExceeded
      (by decide) (by decide)]
  all_goals
    simp [initSession, do_read, fail, ecMessage]

/-- Claim C7 (amended): an unknown method or a malformed target is answered on
the same connection with a well-formed 400 response carrying explanatory text
and mirroring the request's keep-alive, and the connection is torn down after
a transmitted response exactly when that response says close; an oversized
body, however, is not answered: the read fails, nothing is queued, and the
failure is only logged. -/
theorem claim_c7_amended :
    (∀ (fs : String → FileOpenResult) (dr : String) (req : Request),
       req.method ≠ Verb.get → req.method ≠ Verb.head →
         handle_request fs dr req = bad_request req "Unknown HTTP-method" ∧
         (bad_request req "Unknown HTTP-method").status = 400 ∧
         (bad_request req "Unknown HTTP-method").keepAlive = req.keepAlive) ∧
    (∀ (fs : String → FileOpenResult) (dr : String) (req : Request),
       (req.method = Verb.get ∨ req.method = Verb.head) →
       targetIllegal req.target = true →
         handle_request fs dr req = bad_request req "Illegal request-target" ∧
         (bad_request req "Illegal request-target").status = 400 ∧
         (bad_request req "Illegal request-target").keepAlive = req.keepAlive) ∧
    (∀ s : Session, (on_write s true ErrorCode.ok).closedEof = s.closedEof) ∧
    (∀ s : Session, (on_write s false ErrorCode.ok).closedEof = true) ∧
    (∀ (fs : String → FileOpenResult) (dr : String) (s : Session) (req : Request),
       (on_read fs dr s ErrorCode.bodyLimitExceeded req).pushedLog = s.pushedLog ∧
       (on_read fs dr s ErrorCode.bodyLimitExceeded req).failLog
         = s.failLog ++ (fail ErrorCode.bodyLimitExceeded "read").toList) := by
  refine ⟨?_, ?_, ?_, ?_, ?_⟩
  · intro fs dr req h1 h2
    exact ⟨if_pos ⟨h1, h2⟩, rfl, rfl⟩
  · intro fs dr req hm ht
    refine ⟨?_, rfl, rfl⟩
    rcases hm with h | h
    · exact (if_neg (fun hand => hand.1 h)).trans (if_pos ht)
    · exact (if_neg (fun hand => hand.2 h)).trans (if_pos ht)
  · intro s
    exact on_write_ka_closedEof s
  · intro s
    rfl
  · intro fs dr s req
    exact ⟨rfl, rfl⟩

/-- Witness for the amended claim C7 at concrete requests: a POST, a traversal
target, and a concrete session. -/
theorem claim_c7_amended_witness :
    (handle_request fs0 "." reqPost = bad_request reqPost "Unknown HTTP-method" ∧
     (bad_request reqPost "Unknown HTTP-method").status = 400 ∧
     (bad_request reqPost "Unknown HTTP-method").keepAlive = reqPost.keepAlive) ∧
    (handle_request fs0 "." reqTraversal
       = bad_request reqTraversal "Illegal request-target" ∧
     (bad_request reqTraversal "Illegal request-target").status = 400 ∧
     (bad_request reqTraversal "Illegal request-target").keepAlive
       = reqTraversal.keepAlive) ∧
    (on_write sClose true ErrorCode.ok).closedEof = sClose.closedEof ∧
    (on_write sClose false ErrorCode.ok).closedEof = true ∧
    ((on_read fs0 "." initSession ErrorCode.bodyLimitExceeded reqBig).pushedLog
       = initSession.pushedLog ∧
     (on_read fs0 "." initSession ErrorCode.bodyLimitExceeded reqBig).failLog
       = initSession.failLog ++ (fail ErrorCode.bodyLimitExceeded "read").toList) :=
  ⟨claim_c7_amended.1 fs0 "." reqPost (by decide) (by decide),
   claim_c7_amended.2.1 fs0 "." reqTraversal (Or.inl rfl) (by decide),
   claim_c7_amended.2.2.1 sClose,
   claim_c7_amended.2.2.2.1 sClose,
   claim_c7_amended.2.2.2.2 fs0 "." initSession reqBig⟩

/-- Claim C8, evaluated at the failing input: when bind fails at startup the
constructor reports it once and leaves the acceptor dead, yet main still arms
the accept loop, and every accept completion on the dead acceptor is another
logged failure with the loop re-arming — the failure is neither fatal nor
reported exactly once.  A per-accept failure on a live acceptor is logged and
the loop keeps accepting subsequent connections. -/
theorem claim_c8_startup_divergence :
    listener_ctor envBindFail = (["bind: error 98"], false) ∧
    (server_start envBindFail).2 = true ∧
    accept_loop false [ErrorCode.ok, ErrorCode.ok, ErrorCode.ok] =
      (["accept: error 9", "accept: error 9", "accept: error 9"], 0) ∧
    accept_loop true [ErrorCode.other 1, ErrorCode.ok, ErrorCode.ok] =
      (["accept: error 1"], 2) := by
  refine ⟨?_, rfl, ?_, ?_⟩ <;> rfl

/-- Counterexample to claim C9 as stated: the generic request handler has no
placeholder acknowledgment for POST, PUT or DELETE — each of the three verbs
receives the 400 method-rejection error instead. -/
theorem claim_c9_counterexample :
    handle_request fs0 "." reqPost = bad_request reqPost "Unknown HTTP-method" ∧
    handle_request fs0 "." reqPut = bad_request reqPut "Unknown HTTP-method" ∧
    handle_request fs0 "." reqDelete = bad_request reqDelete "Unknown HTTP-method" ∧
    (bad_request reqPost "Unknown HTTP-method").status = 400 := by
  refine ⟨?_, ?_, ?_, rfl⟩ <;> simp [handle_request, reqPost, reqPut, reqDelete]

/-- Claim C9 (amended): the generic request handler has no POST/PUT/DELETE
placeholder; any of these verbs is rejected with the 400 Bad Request response
carrying the text Unknown HTTP-method. -/
theorem claim_c9_amended :
    ∀ (fs : String → FileOpenResult) (dr : String) (req : Request),
      req.method = Verb.post ∨ req.method = Verb.put ∨ req.method = Verb.delete →
        handle_request fs dr req = bad_request req "Unknown HTTP-method" := by
  intro fs dr req hm
  rcases hm with h | h | h <;> simp [handle_request, h]

/-- Witness for the amended claim C9 at a concrete POST request. -/
theorem claim_c9_amended_witness :
    handle_request fs0 "." reqPost = bad_request reqPost "Unknown HTTP-method" :=
  claim_c9_amended fs0 "." reqPost (Or.inl rfl)

/-- Claim C10: the shared failure reporter suppresses exactly the TLS
stream-truncation code — it emits nothing for that code and exactly one line
for every other code — and every stage's error branch routes through it, so
truncation is silent in the detector, the HTTP read and write handlers, the
TLS handshake and shutdown handlers, and the WebSocket accept, read and write
handlers alike. -/
theorem claim_c10_truncation_suppressed :
    (∀ (ec : ErrorCode) (what : String),
       fail ec what = none ↔ ec = ErrorCode.streamTruncated) ∧
    (∀ (ec : ErrorCode) (what : String), ec ≠ ErrorCode.streamTruncated →
       fail ec what = some (what ++ ": " ++ ecMessage ec)) ∧
    (∀ (fs : String → FileOpenResult) (dr : String) (s : Session) (req : Request),
       (on_read fs dr s ErrorCode.streamTruncated req).failLog = s.failLog) ∧
    (∀ (s : Session) (ka : Bool),
       (on_write s ka ErrorCode.streamTruncated).failLog = s.failLog) ∧
    (∀ (s : WsState) (msg : List Nat) (gotText : Bool),
       (ws_on_read s ErrorCode.streamTruncated msg gotText).log = s.log) ∧
    (∀ s : WsState, (ws_on_write s ErrorCode.streamTruncated).log = s.log) ∧
    (∀ s : WsState, (ws_on_accept s ErrorCode.streamTruncated).log = s.log) ∧
    detect_fail_log ErrorCode.streamTruncated = [] ∧
    handshake_fail_log ErrorCode.streamTruncated = [] ∧
    shutdown_fail_log ErrorCode.streamTruncated = [] := by
  refine ⟨?_, ?_, ?_, ?_, ?_, ?_, ?_, rfl, rfl, rfl⟩
  · intro ec what
    constructor
    · intro hn
      by_contra hne
      dsimp only [fail] at hn
      rw [if_neg hne] at hn
      exact Option.noConfusion hn
    · intro he
      subst he
      rfl
  · intro ec what h
    dsimp only [fail]
    rw [if_neg h]
  · intro fs dr s req
    exact List.append_nil s.failLog
  · intro s ka
    exact List.append_nil s.failLog
  · intro s msg gotText
    exact List.append_nil s.log
  · intro s
    exact List.append_nil s.log
  · intro s
    exact List.append_nil s.log

/-- Witness for claim C10 at a concrete non-truncation code and the fresh
session. -/
theorem claim_c10_truncation_suppressed_witness :
    (fail (ErrorCode.other 7) "read" = none ↔
     ErrorCode.other 7 = ErrorCode.streamTruncated) ∧
    fail (ErrorCode.other 7) "read"
      = some ("read" ++ ": " ++ ecMessage (ErrorCode.other 7)) ∧
    (on_read fs0 "." initSession ErrorCode.streamTruncated reqGet).failLog
      = initSession.failLog :=
  ⟨claim_c10_truncation_suppressed.1 (ErrorCode.other 7) "read",
   claim_c10_truncation_suppressed.2.1 (ErrorCode.other 7) "read" (by decide),
   claim_c10_truncation_suppressed.2.2.1 fs0 "." initSession reqGet⟩
